import Mathlib

/-!
Verification of the data ingestion/repair layer and slice-to-geometry
mapping of the 3D seismic/terrain visualization program
(`SgyAndTifSolution.py`).

The program's numeric grids are modelled over `ℚ`.  Raw raster cells may
carry IEEE special values, modelled explicitly by the type `FV`
(finite / NaN / +Inf / -Inf) with IEEE comparison semantics.  External
I/O failures (missing file, unparsable raster, geometry-aware open
failure, raw open failure) are modelled by explicit boolean flags on the
inputs, mirroring the `try/except` structure of the source.
-/

/-- A raw raster cell value: a finite number, NaN, or a signed infinity.
Mirrors the IEEE doubles produced by `src.read(...).astype(float)`. -/
inductive FV where
  | fin (q : ℚ)
  | nan
  | pinf
  | ninf
deriving DecidableEq, Repr

/-- IEEE equality test (`data == src.nodata`): NaN compares unequal to
everything, including itself. -/
def fvEq : FV → FV → Bool
  | FV.fin a, FV.fin b => a == b
  | FV.pinf, FV.pinf => true
  | FV.ninf, FV.ninf => true
  | _, _ => false

/-- The test `np.abs(data) > 1e10`: false on NaN (IEEE comparison),
true on both infinities. -/
def fvAbsGt1e10 : FV → Bool
  | FV.fin q => (10000000000 : ℚ) < |q|
  | FV.nan => false
  | FV.pinf => true
  | FV.ninf => true

/-- `np.isnan`. -/
def isNanFV : FV → Bool
  | FV.nan => true
  | _ => false

/-- Whether a cell holds a finite value (neither NaN nor an infinity). -/
def isFinFV : FV → Bool
  | FV.fin _ => true
  | _ => false

/-- Entrywise map over a 2D grid. -/
def gmap (f : FV → FV) (g : List (List FV)) : List (List FV) :=
  g.map (fun row => row.map f)

/-- `data[data == src.nodata] = np.nan` on a single cell (no-op when the
raster declares no no-data value). -/
def maskNodataCell (nodata : Option FV) (v : FV) : FV :=
  match nodata with
  | none => v
  | some s => if fvEq v s then FV.nan else v

/-- `data[np.abs(data) > 1e10] = np.nan` on a single cell. -/
def maskOutlierCell (v : FV) : FV :=
  if fvAbsGt1e10 v then FV.nan else v

/-- The sentinel/outlier masking stage of `load_tif_data`: lines 26-28 of
the source. -/
def maskGrid (nodata : Option FV) (raw : List (List FV)) : List (List FV) :=
  gmap maskOutlierCell (gmap (maskNodataCell nodata) raw)

/-- The finite payload of a cell, if any. -/
def finPart : FV → Option ℚ
  | FV.fin q => some q
  | _ => none

/-- The finite values of a grid, in order. -/
def finVals (g : List (List FV)) : List ℚ :=
  g.flatten.filterMap finPart

/-- `np.nanmean`: the mean of the non-NaN cells.  On the grids it is
applied to in `load_tif_data` (post-masking) every non-NaN cell is
finite, so the mean of the finite cells coincides with numpy's. -/
def nanmeanG (g : List (List FV)) : ℚ :=
  (finVals g).sum / ((finVals g).length : ℚ)

/-- The NaN-repair stage of `load_tif_data` (lines 30-32): if any cell is
NaN, every NaN cell is overwritten with `np.nanmean(data)` (or `0` when
every cell is NaN). -/
def repairNan (g : List (List FV)) : List (List FV) :=
  if g.flatten.any isNanFV then
    let m : ℚ := if g.flatten.all isNanFV then 0 else nanmeanG g
    gmap (fun v => if isNanFV v then FV.fin m else v) g
  else g

/-- `load_tif_data` (lines 17-36).  `pathExists` models the
`os.path.exists` guard; `openOk` models whether `rasterio.open`/`read`
raises (the `except` branch reports the error and returns `None`);
`raw` is the downsampled float grid produced by `src.read`. -/
def load_tif_data (pathExists openOk : Bool) (nodata : Option FV)
    (raw : List (List FV)) : Option (List (List FV)) :=
  if pathExists = false then none
  else if openOk = false then none
  else some (repairNan (maskGrid nodata raw))

/-- Cell lookup in a 2D grid. -/
def cellFV (g : List (List FV)) (i j : ℕ) : Option FV :=
  (g[i]?).bind (fun row => row[j]?)

-- Basic facts used by the C1/C2 proofs.

theorem gmap_flatten (f : FV → FV) (g : List (List FV)) :
    (gmap f g).flatten = g.flatten.map f := by
  induction g with
  | nil => rfl
  | cons row rest ih => simp [gmap, List.flatten_cons, ih]

theorem maskOutlier_finOrNan (v : FV) :
    isFinFV (maskOutlierCell v) = true ∨ isNanFV (maskOutlierCell v) = true := by
  cases v with
  | fin q =>
    by_cases h : (10000000000 : ℚ) < |q|
    · right; simp [maskOutlierCell, fvAbsGt1e10, h, isNanFV]
    · left; simp [maskOutlierCell, fvAbsGt1e10, h, isFinFV]
  | nan => right; rfl
  | pinf => right; rfl
  | ninf => right; rfl

theorem maskGrid_finOrNan (nodata : Option FV) (raw : List (List FV)) :
    ∀ v ∈ (maskGrid nodata raw).flatten,
      isFinFV v = true ∨ isNanFV v = true := by
  intro v hv
  rw [maskGrid, gmap_flatten] at hv
  rcases List.mem_map.mp hv with ⟨w, _, rfl⟩
  exact maskOutlier_finOrNan w

theorem repairNan_fin (g : List (List FV))
    (hg : ∀ v ∈ g.flatten, isFinFV v = true ∨ isNanFV v = true) :
    ∀ v ∈ (repairNan g).flatten, isFinFV v = true := by
  intro v hv
  rw [repairNan] at hv
  by_cases hany : g.flatten.any isNanFV
  · rw [if_pos hany, gmap_flatten] at hv
    rcases List.mem_map.mp hv with ⟨w, hw, rfl⟩
    rcases hg w hw with hfin | hnan
    · cases w <;> simp_all [isNanFV, isFinFV]
    · cases w <;> simp_all [isNanFV, isFinFV]
  · rw [if_neg hany] at hv
    rcases hg v hv with hfin | hnan
    · exact hfin
    · exact absurd (List.any_eq_true.mpr ⟨v, hv, hnan⟩) hany

/-- Claim C1: for every raster source the loader successfully reads, the
grid returned by `load_tif_data` contains no NaN and no Inf value in any
cell — every cell is finite. -/
theorem c1_no_nan_inf (pathExists openOk : Bool) (nodata : Option FV)
    (raw g : List (List FV))
    (h : load_tif_data pathExists openOk nodata raw = some g) :
    g.flatten.all isFinFV = true := by
  rw [load_tif_data] at h
  by_cases hp : pathExists = false
  · simp [hp] at h
  · by_cases ho : openOk = false
    · simp [hp, ho] at h
    · rw [if_neg hp, if_neg ho] at h
      have hg : g = repairNan (maskGrid nodata raw) := (Option.some.inj h).symm
      subst hg
      exact List.all_eq_true.mpr
        (repairNan_fin _ (maskGrid_finOrNan nodata raw))

theorem cellFV_gmap (f : FV → FV) (g : List (List FV)) (i j : ℕ) :
    cellFV (gmap f g) i j = (cellFV g i j).map f := by
  cases hgi : g[i]? with
  | none => simp [cellFV, gmap, List.getElem?_map, hgi]
  | some row => simp [cellFV, gmap, List.getElem?_map, hgi]

theorem cellFV_mem (g : List (List FV)) (i j : ℕ) (v : FV)
    (h : cellFV g i j = some v) : v ∈ g.flatten := by
  rw [cellFV] at h
  cases hgi : g[i]? with
  | none => simp [hgi] at h
  | some row =>
    rw [hgi] at h
    exact List.mem_flatten.mpr ⟨row, List.getElem?_mem hgi,
      List.getElem?_mem h⟩

/-- Claim C2: every cell that is NaN after sentinel/outlier masking is
replaced, in the grid `load_tif_data` returns, by the mean of the
non-NaN cells of the masked grid (`0` when every cell is NaN), and the
load succeeds either way. -/
theorem c2_mean_fill (nodata : Option FV) (raw : List (List FV)) (i j : ℕ)
    (h : cellFV (maskGrid nodata raw) i j = some FV.nan) :
    load_tif_data true true nodata raw =
      some (repairNan (maskGrid nodata raw)) ∧
    cellFV (repairNan (maskGrid nodata raw)) i j =
      some (FV.fin (if (maskGrid nodata raw).flatten.all isNanFV then 0
                    else nanmeanG (maskGrid nodata raw))) := by
  refine ⟨rfl, ?_⟩
  have hany : (maskGrid nodata raw).flatten.any isNanFV = true :=
    List.any_eq_true.mpr ⟨FV.nan, cellFV_mem _ i j _ h, rfl⟩
  rw [repairNan, if_pos hany, cellFV_gmap, h]
  rfl

theorem c2_witness :
    load_tif_data true true none [[FV.fin 2, FV.nan]] =
      some (repairNan (maskGrid none [[FV.fin 2, FV.nan]])) ∧
    cellFV (repairNan (maskGrid none [[FV.fin 2, FV.nan]])) 0 1 =
      some (FV.fin
        (if (maskGrid none [[FV.fin 2, FV.nan]]).flatten.all isNanFV then 0
         else nanmeanG (maskGrid none [[FV.fin 2, FV.nan]]))) :=
  c2_mean_fill none [[FV.fin 2, FV.nan]] 0 1
    (by norm_num [cellFV, maskGrid, gmap, maskOutlierCell, maskNodataCell,
      fvAbsGt1e10])

theorem c1_witness :
    ([[FV.fin 2, FV.fin 2]] : List (List FV)).flatten.all isFinFV = true :=
  c1_no_nan_inf true true none [[FV.fin 2, FV.nan]] [[FV.fin 2, FV.fin 2]]
    (by norm_num [load_tif_data, repairNan, maskGrid, gmap, nanmeanG, finVals,
      finPart, List.filterMap_cons, maskOutlierCell, maskNodataCell,
      fvAbsGt1e10, isNanFV])

/-! ### The volume slice extractor (`load_sgy_slice`, lines 38-67) -/

/-- The three values of the `slice_type` argument.  Any value other than
`Inline` / `Crossline` takes the `else` (depth-slice) branch in the
source, so the third constructor stands for the string `"Time Slice"`. -/
inductive SliceType where
  | TimeSlice
  | Inline
  | Crossline
deriving DecidableEq, Repr

/-- A SEG-Y volume as `segyio` exposes it.  `geoOpen` models whether
`segyio.open(..., ignore_geometry=False)` and the subsequent
geometry-aware reads succeed; `rawOpen` models whether the
`ignore_geometry=True` reopen succeeds.  `ilines` / `xlines` are the
ordered inline / crossline numbers; `ilineData n` is the 2D array
`segyio.tools.collect(f.iline[n])` (before the transpose at line 58),
`xlineData` and `depthData` likewise; `traces` is the trace list used by
the degraded fallback. -/
structure SegyVolume where
  geoOpen : Bool
  ilines : List ℤ
  xlines : List ℤ
  nsamples : ℕ
  ilineData : ℤ → List (List ℚ)
  xlineData : ℤ → List (List ℚ)
  depthData : ℕ → List (List ℚ)
  rawOpen : Bool
  traces : List (List ℚ)

/-- Python sequence indexing as `segyio`'s trace accessor implements it:
a negative index wraps around once, and anything still out of range
raises `IndexError` (modelled as `none`). -/
def pyIndex {α : Type} (xs : List α) (i : ℤ) : Option α :=
  if 0 ≤ i then xs[i.toNat]?
  else if -(xs.length : ℤ) ≤ i then xs[((xs.length : ℤ) + i).toNat]?
  else none

/-- The index clamping `min(max(index, 0), n - 1)` from lines 49/52/55. -/
def iclampZ (i : ℤ) (n : ℕ) : ℤ :=
  min (max i 0) ((n : ℤ) - 1)

/-- `numpy` transpose `data.T` of a rectangular 2D array. -/
def transposeQ (g : List (List ℚ)) : List (List ℚ) :=
  (List.range (g.getD 0 []).length).map (fun j => g.map (fun row => row.getD j 0))

/-- The geometry-aware read, before the transpose: lines 48-55. -/
def geoData (v : SegyVolume) (ty : SliceType) (index : ℤ) : List (List ℚ) :=
  match ty with
  | SliceType.Inline =>
      v.ilineData (v.ilines.getD (iclampZ index v.ilines.length).toNat 0)
  | SliceType.Crossline =>
      v.xlineData (v.xlines.getD (iclampZ index v.xlines.length).toNat 0)
  | SliceType.TimeSlice =>
      v.depthData (iclampZ index v.nsamples).toNat

/-- `np.repeat(raw_data, 100, axis=1)` applied to a single trace
reshaped to a column (line 65): row `i` of the result is the trace
sample `i` repeated 100 times. -/
def expandTrace (tr : List ℚ) : List (List ℚ) :=
  tr.map (fun a => List.replicate 100 a)

/-- The degraded single-trace fallback (lines 61-67): reopen ignoring
geometry, read `f.trace[index]` with Python indexing, and expand it; any
exception (`rawOpen = false`, or an out-of-range index) yields `none`. -/
def fallbackSlice (v : SegyVolume) (index : ℤ) : Option (List (List ℚ)) :=
  if v.rawOpen then (pyIndex v.traces index).map expandTrace else none

/-- `load_sgy_slice` (lines 38-67).  The float32 round-trip of line 58
is modelled as the identity on `ℚ` grids. -/
def load_sgy_slice (v : SegyVolume) (pathExists : Bool) (ty : SliceType)
    (index : ℤ) : Option (List (List ℚ)) :=
  if pathExists = false then none
  else if v.geoOpen then some (transposeQ (geoData v ty index))
  else fallbackSlice v index

/-- The number of addressable positions along the selected axis in
geometry-aware mode. -/
def lineCount (v : SegyVolume) : SliceType → ℕ
  | SliceType.Inline => v.ilines.length
  | SliceType.Crossline => v.xlines.length
  | SliceType.TimeSlice => v.nsamples

/-- Column `j` of a 2D array. -/
def colQ (g : List (List ℚ)) (j : ℕ) : List ℚ :=
  g.map (fun row => row.getD j 0)

-- Clamp arithmetic.

theorem iclampZ_neg (i : ℤ) (n : ℕ) (hi : i < 0) (hn : 0 < n) :
    iclampZ i n = iclampZ 0 n := by
  rw [iclampZ, iclampZ]; omega

theorem iclampZ_ge (i : ℤ) (n : ℕ) (hi : (n : ℤ) ≤ i) :
    iclampZ i n = iclampZ ((n : ℤ) - 1) n := by
  rw [iclampZ, iclampZ]; omega

theorem pyIndex_oob {α : Type} (xs : List α) (i : ℤ)
    (h : i < -(xs.length : ℤ) ∨ (xs.length : ℤ) ≤ i) : pyIndex xs i = none := by
  rw [pyIndex]
  rcases h with h | h
  · rw [if_neg (by omega), if_neg (by omega)]
  · rw [if_pos (by omega)]
    apply List.getElem?_eq_none
    omega

theorem geoData_clamp_low (v : SegyVolume) (ty : SliceType) (i : ℤ)
    (hi : i < 0) (hn : 0 < lineCount v ty) :
    geoData v ty i = geoData v ty 0 := by
  cases ty <;> simp only [lineCount] at hn <;> simp only [geoData] <;>
    rw [iclampZ_neg i _ hi hn]

theorem geoData_clamp_high (v : SegyVolume) (ty : SliceType) (i : ℤ)
    (hi : (lineCount v ty : ℤ) ≤ i) :
    geoData v ty i = geoData v ty ((lineCount v ty : ℤ) - 1) := by
  cases ty <;> simp only [lineCount] at hi ⊢ <;> simp only [geoData] <;>
    rw [iclampZ_ge i _ hi]

/-- A volume whose geometry-aware open fails and whose raw reopen
succeeds, with two distinct traces. -/
def vC3 : SegyVolume where
  geoOpen := false
  ilines := []
  xlines := []
  nsamples := 0
  ilineData := fun _ => []
  xlineData := fun _ => []
  depthData := fun _ => []
  rawOpen := true
  traces := [[1], [2]]

/-- Claim C3, counterexample: in the degraded single-trace fallback the
index is NOT clamped to `[0, trace_count - 1]`.  With two traces
`[1]` and `[2]`, the out-of-range index `-1` wraps Python-style to the
LAST trace, so the result differs from the result at the nearest valid
boundary index `0`. -/
theorem c3_counterexample :
    load_sgy_slice vC3 true SliceType.Inline (-1) ≠
      load_sgy_slice vC3 true SliceType.Inline 0 ∧
    vC3.geoOpen = false ∧ vC3.rawOpen = true := by
  refine ⟨?_, rfl, rfl⟩
  decide

/-- Claim C3 (amended): in geometry-aware mode an out-of-range index is
clamped to `[0, count - 1]` of the selected axis, so the result equals
the result at the nearest valid boundary index; in the degraded
fallback the index is not clamped but passed to Python sequence
indexing (`f.trace[index]`): a negative index wraps around once and an
index that is still out of range makes the fallback fail, yielding
`none`. -/
theorem c3_clamped (v : SegyVolume) (ty : SliceType) (i : ℤ) :
    (v.geoOpen = true → 0 < lineCount v ty →
      ((i < 0 → load_sgy_slice v true ty i = load_sgy_slice v true ty 0) ∧
       ((lineCount v ty : ℤ) ≤ i →
          load_sgy_slice v true ty i =
            load_sgy_slice v true ty ((lineCount v ty : ℤ) - 1)))) ∧
    (v.geoOpen = false → load_sgy_slice v true ty i = fallbackSlice v i) ∧
    (v.geoOpen = false → v.rawOpen = true →
      (i < -(v.traces.length : ℤ) ∨ (v.traces.length : ℤ) ≤ i) →
        load_sgy_slice v true ty i = none) := by
  refine ⟨fun hg hn => ⟨fun hi => ?_, fun hi => ?_⟩, fun hg => ?_,
    fun hg hr hoob => ?_⟩
  · simp only [load_sgy_slice, hg, if_true, Bool.not_eq_false,
      geoData_clamp_low v ty i hi hn]
  · simp only [load_sgy_slice, hg, if_true, Bool.not_eq_false,
      geoData_clamp_high v ty i hi]
  · simp [load_sgy_slice, hg]
  · simp [load_sgy_slice, hg, fallbackSlice, hr, pyIndex_oob v.traces i hoob]

/-- A geometry-aware volume with two inlines, used to instantiate the
clamping statement. -/
def vC3geo : SegyVolume where
  geoOpen := true
  ilines := [10, 20]
  xlines := [30]
  nsamples := 1
  ilineData := fun n => [[(n : ℚ)]]
  xlineData := fun _ => [[0]]
  depthData := fun _ => [[0]]
  rawOpen := false
  traces := []

theorem c3_witness :
    load_sgy_slice vC3geo true SliceType.Inline (-7) =
      load_sgy_slice vC3geo true SliceType.Inline 0 ∧
    load_sgy_slice vC3geo true SliceType.Inline 9 =
      load_sgy_slice vC3geo true SliceType.Inline
        ((lineCount vC3geo SliceType.Inline : ℤ) - 1) ∧
    load_sgy_slice vC3 true SliceType.Crossline 5 = none :=
  ⟨((c3_clamped vC3geo SliceType.Inline (-7)).1 rfl (by decide)).1 (by decide),
   ((c3_clamped vC3geo SliceType.Inline 9).1 rfl (by decide)).2 (by decide),
   (c3_clamped vC3 SliceType.Crossline 5).2.2 rfl rfl (by decide)⟩

theorem getD_replicate_lt (a : ℚ) (n j : ℕ) (h : j < n) :
    (List.replicate n a).getD j 0 = a := by
  rw [List.getD_eq_getElem?_getD, List.getElem?_replicate, if_pos h]
  rfl

/-- Claim C4: when the geometry-aware open fails and the single-trace
fallback succeeds, the returned slice is the read trace expanded to
exactly 100 columns: one row per trace sample, every row of length 100,
and every one of the 100 columns equal to the original trace. -/
theorem c4_fallback_shape (v : SegyVolume) (ty : SliceType) (i : ℤ)
    (tr : List ℚ) (hgeo : v.geoOpen = false) (hraw : v.rawOpen = true)
    (htr : pyIndex v.traces i = some tr) :
    load_sgy_slice v true ty i = some (expandTrace tr) ∧
    (expandTrace tr).length = tr.length ∧
    (expandTrace tr).all (fun row => row.length == 100) = true ∧
    (List.range 100).all (fun j => colQ (expandTrace tr) j == tr) = true := by
  refine ⟨?_, ?_, ?_, ?_⟩
  · simp [load_sgy_slice, hgeo, fallbackSlice, hraw, htr]
  · simp [expandTrace]
  · rw [List.all_eq_true]
    intro row hrow
    rcases List.mem_map.mp hrow with ⟨a, _, rfl⟩
    simp
  · rw [List.all_eq_true]
    intro j hj
    have hj100 : j < 100 := List.mem_range.mp hj
    apply beq_iff_eq.mpr
    rw [colQ, expandTrace, List.map_map]
    have : ∀ a ∈ tr,
        ((fun row => row.getD j 0) ∘ fun a => List.replicate 100 a) a = id a :=
      fun a _ => getD_replicate_lt a 100 j hj100
    rw [List.map_congr_left this, List.map_id]

theorem c4_witness :
    load_sgy_slice vC3 true SliceType.TimeSlice 0 =
      some (expandTrace [(1 : ℚ)]) ∧
    (expandTrace [(1 : ℚ)]).length = [(1 : ℚ)].length ∧
    (expandTrace [(1 : ℚ)]).all (fun row => row.length == 100) = true ∧
    (List.range 100).all
      (fun j => colQ (expandTrace [(1 : ℚ)]) j == [(1 : ℚ)]) = true :=
  c4_fallback_shape vC3 SliceType.TimeSlice 0 [1] rfl rfl (by decide)

/-- A geometry-aware volume whose (transposed) depth slice happens to be
bit-identical to what the degraded fallback of `vC5deg` produces. -/
def vC5geo : SegyVolume where
  geoOpen := true
  ilines := [1]
  xlines := [1]
  nsamples := 1
  ilineData := fun _ => []
  xlineData := fun _ => []
  depthData := fun _ => List.replicate 100 [(5 : ℚ)]
  rawOpen := false
  traces := []

/-- A geometry-less volume whose single-trace fallback produces the same
array as the geometry-aware read of `vC5geo`. -/
def vC5deg : SegyVolume where
  geoOpen := false
  ilines := []
  xlines := []
  nsamples := 0
  ilineData := fun _ => []
  xlineData := fun _ => []
  depthData := fun _ => []
  rawOpen := true
  traces := [[5]]

/-- Claim C5, counterexample: a slice produced by the degraded
single-trace fallback carries no tag and can be bit-identical to a slice
produced by geometry-aware extraction, so the caller cannot distinguish
the two from the returned value. -/
theorem c5_counterexample :
    vC5geo.geoOpen = true ∧ vC5deg.geoOpen = false ∧
    load_sgy_slice vC5geo true SliceType.TimeSlice 0 =
      load_sgy_slice vC5deg true SliceType.TimeSlice 0 := by
  refine ⟨rfl, rfl, ?_⟩
  decide

/-- Claim C5 (amended): `load_sgy_slice` returns a plain `Option` array
in both modes, with no degraded marker; there are a geometry-aware
volume and a degraded volume for which it returns the very same array. -/
theorem c5_untagged :
    load_sgy_slice vC5geo true SliceType.TimeSlice 0 =
      some (expandTrace [(5 : ℚ)]) ∧
    load_sgy_slice vC5deg true SliceType.TimeSlice 0 =
      some (expandTrace [(5 : ℚ)]) := by
  constructor <;> decide

/-- Claim C10: both loaders are total at the call boundary — a missing
path yields `none` before any open, a raster open/parse failure yields
`none`, a geometry-aware failure falls back to the degraded read, and a
failure of the degraded read (failed reopen or out-of-range trace
index) is absorbed into `none`. -/
theorem c10_total_boundary (ok : Bool) (nodata : Option FV)
    (raw : List (List FV)) (v : SegyVolume) (ty : SliceType) (i : ℤ) :
    (load_tif_data false ok nodata raw = none) ∧
    (load_tif_data true false nodata raw = none) ∧
    (load_sgy_slice v false ty i = none) ∧
    (v.geoOpen = false → load_sgy_slice v true ty i = fallbackSlice v i) ∧
    (v.geoOpen = false → v.rawOpen = false →
      load_sgy_slice v true ty i = none) ∧
    (v.geoOpen = false → v.rawOpen = true → pyIndex v.traces i = none →
      load_sgy_slice v true ty i = none) := by
  refine ⟨rfl, rfl, rfl, fun hg => ?_, fun hg hr => ?_, fun hg hr hpy => ?_⟩
  · simp [load_sgy_slice, hg]
  · simp [load_sgy_slice, hg, fallbackSlice, hr]
  · simp [load_sgy_slice, hg, fallbackSlice, hr, hpy]

/-- A volume on which both the geometry-aware open and the raw reopen
fail. -/
def vC10none : SegyVolume where
  geoOpen := false
  ilines := []
  xlines := []
  nsamples := 0
  ilineData := fun _ => []
  xlineData := fun _ => []
  depthData := fun _ => []
  rawOpen := false
  traces := []

theorem c10_witness :
    load_tif_data false true none [] = none ∧
    load_tif_data true false none [] = none ∧
    load_sgy_slice vC3 false SliceType.TimeSlice 7 = none ∧
    load_sgy_slice vC3 true SliceType.TimeSlice 7 = fallbackSlice vC3 7 ∧
    load_sgy_slice vC10none true SliceType.TimeSlice 0 = none ∧
    load_sgy_slice vC3 true SliceType.TimeSlice 7 = none :=
  ⟨(c10_total_boundary true none [] vC3 SliceType.TimeSlice 7).1,
   (c10_total_boundary false none [] vC3 SliceType.TimeSlice 7).2.1,
   (c10_total_boundary true none [] vC3 SliceType.TimeSlice 7).2.2.1,
   (c10_total_boundary true none [] vC3 SliceType.TimeSlice 7).2.2.2.1 rfl,
   (c10_total_boundary true none [] vC10none SliceType.TimeSlice
      0).2.2.2.2.1 rfl rfl,
   (c10_total_boundary true none [] vC3 SliceType.TimeSlice 7).2.2.2.2.2
     rfl rfl (by decide)⟩

/-! ### The 3D plot builder (`create_3d_plot`, lines 100-164) -/

/-- Insert into a sorted list, keeping it sorted. -/
def insertSorted (x : ℚ) : List ℚ → List ℚ
  | [] => [x]
  | y :: ys => if x ≤ y then x :: y :: ys else y :: insertSorted x ys

/-- Insertion sort, ascending. -/
def sortQ (xs : List ℚ) : List ℚ :=
  xs.foldr insertSorted []

/-- `np.percentile(xs, q)` with numpy's default linear interpolation:
for sorted values `s` of length `n`, the result interpolates between
`s[⌊pos⌋]` and `s[⌊pos⌋ + 1]` at `pos = q/100 * (n-1)`.  (numpy raises
on an empty array; the `n = 0` guard totalizes the model.) -/
def percentileQ (xs : List ℚ) (q : ℚ) : ℚ :=
  if (sortQ xs).length = 0 then 0
  else
    let s := sortQ xs
    let n := s.length
    let pos : ℚ := q / 100 * ((n : ℚ) - 1)
    let k : ℕ := (⌊pos⌋).toNat
    let frac : ℚ := pos - (k : ℚ)
    (s.getD k 0) + frac * (s.getD (min (k + 1) (n - 1)) 0 - s.getD k 0)

/-- `np.linspace a b n`: `n` evenly spaced values from `a` to `b`,
endpoints included. -/
def linspace (a b : ℚ) (n : ℕ) : List ℚ :=
  if n = 0 then []
  else if n = 1 then [a]
  else (List.range n).map (fun k => a + (b - a) * (k : ℚ) / ((n : ℚ) - 1))

/-- First output of `np.meshgrid xs ys` (default indexing): shape
`(len ys, len xs)`, entry `(i, j)` is `xs[j]`. -/
def meshgridA (xs ys : List ℚ) : List (List ℚ) :=
  ys.map (fun _ => xs)

/-- Second output of `np.meshgrid xs ys`: shape `(len ys, len xs)`,
entry `(i, j)` is `ys[i]`. -/
def meshgridB (xs ys : List ℚ) : List (List ℚ) :=
  ys.map (fun y => xs.map (fun _ => y))

/-- `np.full_like g v`: the constant grid of value `v` in the shape of
`g`. -/
def full_like (g : List (List ℚ)) (v : ℚ) : List (List ℚ) :=
  g.map (fun r => r.map (fun _ => v))

/-- Elementwise `tif_data * z_exag` (lines 109 and 124). -/
def scaleGrid (g : List (List ℚ)) (ze : ℚ) : List (List ℚ) :=
  g.map (fun r => r.map (fun a => a * ze))

/-- `np.nanmean` over a grid of plain rationals (the terrain grid
`load_tif_data` returns contains no NaN, so nanmean is the mean). -/
def gridMean (g : List (List ℚ)) : ℚ :=
  g.flatten.sum / (g.flatten.length : ℚ)

/-- `vmax = np.percentile(np.abs(sgy_slice), contrast)` (line 121). -/
def sliceVmax (s : List (List ℚ)) (contrast : ℚ) : ℚ :=
  percentileQ (s.flatten.map (fun a => |a|)) contrast

/-- `z_base = np.nanmean(tif_data * z_exag) + z_offset` (line 124). -/
def zBase (tif : List (List ℚ)) (ze zoff : ℚ) : ℚ :=
  gridMean (scaleGrid tif ze) + zoff

/-- The terrain `go.Surface` of lines 108-116. -/
structure TerrainSurface where
  z : List (List ℚ)
  x : List ℚ
  y : List ℚ
  colorscale : String
  opacity : ℚ
deriving DecidableEq, Repr

/-- The seismic-slice `go.Surface` of lines 147-154. -/
structure SliceSurface where
  X : List (List ℚ)
  Y : List (List ℚ)
  Z : List (List ℚ)
  surfacecolor : List (List ℚ)
  colorscale : String
  cmin : ℚ
  cmax : ℚ
deriving DecidableEq, Repr, Inhabited

/-- The figure `create_3d_plot` returns: the terrain surface plus, when
a slice was supplied, the slice surface.  (Static layout metadata —
axis titles, aspect mode, margins, height — is omitted.) -/
structure Scene where
  terrain : TerrainSurface
  slice : Option SliceSurface
deriving DecidableEq, Repr

/-- `create_3d_plot` (lines 100-164), with `ny, nx = tif_data.shape`,
`s_rows, s_cols = sgy_slice.shape`.  Note the fixed X of an `Inline`
plane and the fixed Y of a `Crossline` plane use the Python floor
division `nx // 2` / `ny // 2` (lines 138 and 145). -/
def create_3d_plot (tif_data : List (List ℚ))
    (sgy_slice : Option (List (List ℚ))) (colorscale : String)
    (z_exag opacity contrast : ℚ) (slice_type : SliceType)
    (z_offset : ℚ) : Scene :=
  { terrain :=
      { z := scaleGrid tif_data z_exag
        x := (List.range (tif_data.getD 0 []).length).map (fun k => (k : ℚ))
        y := (List.range tif_data.length).map (fun k => (k : ℚ))
        colorscale := "earth"
        opacity := opacity }
    slice :=
      match sgy_slice with
      | none => none
      | some s =>
        match slice_type with
        | SliceType.TimeSlice =>
            some { X := meshgridA
                     (linspace 0 ((tif_data.getD 0 []).length : ℚ)
                       (s.getD 0 []).length)
                     (linspace 0 (tif_data.length : ℚ) s.length)
                   Y := meshgridB
                     (linspace 0 ((tif_data.getD 0 []).length : ℚ)
                       (s.getD 0 []).length)
                     (linspace 0 (tif_data.length : ℚ) s.length)
                   Z := full_like s (zBase tif_data z_exag z_offset)
                   surfacecolor := s
                   colorscale := colorscale
                   cmin := -sliceVmax s contrast
                   cmax := sliceVmax s contrast }
        | SliceType.Inline =>
            some { X := full_like
                     (meshgridB
                       (linspace 0 (tif_data.length : ℚ) (s.getD 0 []).length)
                       (linspace (zBase tif_data z_exag z_offset - 500)
                         (zBase tif_data z_exag z_offset + 500) s.length))
                     (((tif_data.getD 0 []).length / 2 : ℕ) : ℚ)
                   Y := meshgridA
                     (linspace 0 (tif_data.length : ℚ) (s.getD 0 []).length)
                     (linspace (zBase tif_data z_exag z_offset - 500)
                       (zBase tif_data z_exag z_offset + 500) s.length)
                   Z := meshgridB
                     (linspace 0 (tif_data.length : ℚ) (s.getD 0 []).length)
                     (linspace (zBase tif_data z_exag z_offset - 500)
                       (zBase tif_data z_exag z_offset + 500) s.length)
                   surfacecolor := s
                   colorscale := colorscale
                   cmin := -sliceVmax s contrast
                   cmax := sliceVmax s contrast }
        | SliceType.Crossline =>
            some { X := meshgridA
                     (linspace 0 ((tif_data.getD 0 []).length : ℚ)
                       (s.getD 0 []).length)
                     (linspace (zBase tif_data z_exag z_offset - 500)
                       (zBase tif_data z_exag z_offset + 500) s.length)
                   Y := full_like
                     (meshgridB
                       (linspace 0 ((tif_data.getD 0 []).length : ℚ)
                         (s.getD 0 []).length)
                       (linspace (zBase tif_data z_exag z_offset - 500)
                         (zBase tif_data z_exag z_offset + 500) s.length))
                     ((tif_data.length / 2 : ℕ) : ℚ)
                   Z := meshgridB
                     (linspace 0 ((tif_data.getD 0 []).length : ℚ)
                       (s.getD 0 []).length)
                     (linspace (zBase tif_data z_exag z_offset - 500)
                       (zBase tif_data z_exag z_offset + 500) s.length)
                   surfacecolor := s
                   colorscale := colorscale
                   cmin := -sliceVmax s contrast
                   cmax := sliceVmax s contrast } }

theorem full_like_flatten (g : List (List ℚ)) (v : ℚ) :
    (full_like g v).flatten = g.flatten.map (fun _ => v) := by
  induction g with
  | nil => rfl
  | cons row rest ih =>
    rw [full_like] at ih ⊢
    simp only [List.map_cons, List.flatten_cons, List.map_append, ih]

theorem full_like_all (g : List (List ℚ)) (v : ℚ) :
    (full_like g v).flatten.all (fun x => x == v) = true := by
  rw [List.all_eq_true]
  intro x hx
  rw [full_like_flatten] at hx
  rcases List.mem_map.mp hx with ⟨_, _, rfl⟩
  exact beq_self_eq_true v

/-- Claim C6: for a `TimeSlice` build the Z coordinate array is
`np.full_like(sgy_slice, z_base)`: it has the slice's shape (same row
count, same row lengths) and every entry equals
`mean(terrain * z_exaggeration) + z_offset`. -/
theorem c6_timeslice_z (tif s : List (List ℚ)) (cs : String)
    (ze op c zoff : ℚ) :
    (create_3d_plot tif (some s) cs ze op c SliceType.TimeSlice
        zoff).slice.map (fun su => su.Z) =
      some (full_like s (zBase tif ze zoff)) ∧
    (full_like s (zBase tif ze zoff)).length = s.length ∧
    (full_like s (zBase tif ze zoff)).map List.length = s.map List.length ∧
    (full_like s (zBase tif ze zoff)).flatten.all
      (fun z => z == gridMean (scaleGrid tif ze) + zoff) = true := by
  refine ⟨rfl, by simp [full_like], ?_, full_like_all s _⟩
  rw [full_like, List.map_map]
  exact List.map_congr_left (fun r _ => by simp)

/-- Claim C7: for every slice and contrast percentile in [80, 100], the
color range on the slice surface is symmetric:
`cmax = percentile(|slice|, contrast)` and `cmin = -cmax` exactly. -/
theorem c7_symmetric_range (tif s : List (List ℚ)) (cs : String)
    (ze op c zoff : ℚ) (ty : SliceType) (surf : SliceSurface)
    (_hc80 : 80 ≤ c) (_hc100 : c ≤ 100)
    (h : (create_3d_plot tif (some s) cs ze op c ty zoff).slice = some surf) :
    surf.cmax = percentileQ (s.flatten.map (fun a => |a|)) c ∧
    surf.cmin = -surf.cmax := by
  cases ty <;> rw [← Option.some.inj h] <;> exact ⟨rfl, rfl⟩

def c7surf : SliceSurface :=
  ((create_3d_plot [[(1 : ℚ)]] (some [[(3 : ℚ)]]) "rdbu" 1 1 98
      SliceType.Crossline 0).slice).getD default

theorem c7_witness :
    c7surf.cmax = percentileQ (([[(3 : ℚ)]] : List (List ℚ)).flatten.map
      (fun a => |a|)) 98 ∧
    c7surf.cmin = -c7surf.cmax :=
  c7_symmetric_range [[(1 : ℚ)]] [[(3 : ℚ)]] "rdbu" 1 1 98 0
    SliceType.Crossline c7surf (by norm_num) (by norm_num) rfl

/-- Claim C8: the returned scene always contains the terrain surface
(the exaggerated terrain), and contains the slice surface if and only if
the slice argument is non-null; a null slice yields a terrain-only
scene, not a failure. -/
theorem c8_terrain_always (tif : List (List ℚ))
    (sl : Option (List (List ℚ))) (cs : String) (ze op c zoff : ℚ)
    (ty : SliceType) :
    (create_3d_plot tif sl cs ze op c ty zoff).terrain.z =
      scaleGrid tif ze ∧
    ((create_3d_plot tif sl cs ze op c ty zoff).slice.isSome ↔
      sl.isSome) := by
  cases sl <;> cases ty <;> exact ⟨rfl, Iff.rfl⟩

/-- Claim C9, counterexample: for an `Inline` build over a terrain with
`nx = 3` columns, every X entry is `nx // 2 = 1` (floor division), not
`nx / 2 = 3/2` as the claim states for odd `nx`. -/
theorem c9_counterexample :
    (create_3d_plot [[(0 : ℚ), 0, 0]] (some [[(1 : ℚ), 2], [3, 4]]) "rdbu"
        1 1 98 SliceType.Inline 0).slice.map (fun su => su.X) =
      some [[1, 1], [1, 1]] ∧ (1 : ℚ) ≠ 3 / 2 := by
  constructor
  · rfl
  · norm_num

/-- Claim C9 (amended): for an `Inline` build the X coordinate array is
constant, equal to the Python floor division `nx // 2` — which agrees
with `nx / 2` only for even `nx`. -/
theorem c9_inline_x (tif s : List (List ℚ)) (cs : String)
    (ze op c zoff : ℚ) (surf : SliceSurface)
    (h : (create_3d_plot tif (some s) cs ze op c SliceType.Inline
        zoff).slice = some surf) :
    surf.X.flatten.all
      (fun x => x == (((tif.getD 0 []).length / 2 : ℕ) : ℚ)) = true := by
  rw [← Option.some.inj h]
  exact full_like_all _ _

def c9surf : SliceSurface :=
  ((create_3d_plot [[(0 : ℚ), 0, 0]] (some [[(1 : ℚ), 2], [3, 4]]) "rdbu"
      1 1 98 SliceType.Inline 0).slice).getD default

theorem c9_witness :
    c9surf.X.flatten.all
      (fun x => x ==
        (((([[(0 : ℚ), 0, 0]] : List (List ℚ)).getD 0 []).length / 2 : ℕ)
          : ℚ)) = true :=
  c9_inline_x [[(0 : ℚ), 0, 0]] [[(1 : ℚ), 2], [3, 4]] "rdbu" 1 1 98 0
    c9surf rfl
